import Mathlib

/-!
Verification of the multi-robot MCP adapter (server.py): a shallow embedding
of the command-relay tools, the fleet status aggregator and the robot info
resource, together with theorems about the relay and aggregation contracts.
Network effects are modelled by an explicit environment function mapping each
outbound request to its outcome.
-/

namespace Server

/-- Structured JSON-like value, the shape of downstream response payloads. -/
inductive Json where
  | null : Json
  | bool (b : Bool) : Json
  | num (q : ℚ) : Json
  | str (s : String) : Json
  | arr (elems : List Json) : Json
  | obj (fields : List (String × Json)) : Json

/-- Value of one query parameter or JSON-body field sent downstream. -/
inductive ParamVal where
  | num (q : ℚ) : ParamVal
  | str (s : String) : ParamVal
deriving Repr, DecidableEq

/-- HTTP method of an outbound call. -/
inductive Method where
  | get : Method
  | post : Method
deriving Repr, DecidableEq

/-- One outbound HTTP request issued by the adapter: method, full URL, query
parameters in insertion order, optional JSON body (for POST /drive), and the
optional per-call timeout. -/
structure HttpRequest where
  method : Method
  url : String
  params : List (String × ParamVal)
  jsonData : Option (List (String × ParamVal))
  timeout : Option ℚ
deriving Repr, DecidableEq

/-- A downstream HTTP response: status code, the outcome of parsing the body
as JSON (an error message when the body is malformed and json() would raise),
and the raw body bytes. -/
structure HttpResponse where
  status_code : Nat
  jsonBody : Except String Json
  content : List Nat

/-- Outcome of one outbound call: a transport-level exception carrying its
message, or a response from the downstream server. -/
inductive FetchOutcome where
  | exc (msg : String) : FetchOutcome
  | success (resp : HttpResponse) : FetchOutcome

/-- Whether a status code lies in the HTTP success range, the check performed
by raise_for_status. -/
def is_success (status : Nat) : Bool :=
  200 ≤ status && status ≤ 299

/-- Error taxonomy for a single-action relay call: transport failure,
non-success downstream status surfaced by raise_for_status, or a body that
json() could not parse. -/
inductive RelayError where
  | transportError (msg : String) : RelayError
  | downstreamApplicationError (status : Nat) : RelayError
  | malformedResponseError (msg : String) : RelayError
deriving Repr, DecidableEq

/-- Shared body of every JSON relay tool after the request is issued:
raise_for_status followed by response.json(). A transport exception, a
non-success status and an unparseable body each become a distinct error;
nothing is retried or swallowed. -/
def relay_result (outcome : FetchOutcome) : Except RelayError Json :=
  match outcome with
  | .exc msg => .error (.transportError msg)
  | .success r =>
      if is_success r.status_code then
        match r.jsonBody with
        | .ok j => .ok j
        | .error m => .error (.malformedResponseError m)
      else .error (.downstreamApplicationError r.status_code)

/-- Base API URL for a robot from its port number, get_robot_api_url. -/
def get_robot_api_url (port : Nat) : String :=
  "http://localhost:" ++ toString port

/-- Query parameters of the four movement tools: the speed always, the
duration only when the caller supplied one. -/
def movement_params (speed : ℚ) (duration : Option ℚ) :
    List (String × ParamVal) :=
  [("speed", ParamVal.num speed)] ++
    (match duration with
     | some d => [("duration", ParamVal.num d)]
     | none => [])

/-- The GET request built by drive_forward. -/
def drive_forward_request (port : Nat) (speed : ℚ) (duration : Option ℚ) :
    HttpRequest :=
  ⟨Method.get, get_robot_api_url port ++ "/forward",
    movement_params speed duration, none, none⟩

/-- The GET request built by drive_backward. -/
def drive_backward_request (port : Nat) (speed : ℚ) (duration : Option ℚ) :
    HttpRequest :=
  ⟨Method.get, get_robot_api_url port ++ "/backward",
    movement_params speed duration, none, none⟩

/-- The GET request built by turn_left. -/
def turn_left_request (port : Nat) (speed : ℚ) (duration : Option ℚ) :
    HttpRequest :=
  ⟨Method.get, get_robot_api_url port ++ "/left",
    movement_params speed duration, none, none⟩

/-- The GET request built by turn_right. -/
def turn_right_request (port : Nat) (speed : ℚ) (duration : Option ℚ) :
    HttpRequest :=
  ⟨Method.get, get_robot_api_url port ++ "/right",
    movement_params speed duration, none, none⟩

/-- The GET request built by stop: no parameters. -/
def stop_request (port : Nat) : HttpRequest :=
  ⟨Method.get, get_robot_api_url port ++ "/stop", [], none, none⟩

/-- The GET request built by beep: frequency, duration and volume always. -/
def beep_request (port : Nat) (frequency duration volume : ℚ) : HttpRequest :=
  ⟨Method.get, get_robot_api_url port ++ "/beep",
    [("frequency", ParamVal.num frequency),
     ("duration", ParamVal.num duration),
     ("volume", ParamVal.num volume)], none, none⟩

/-- The POST request built by drive: body holds the two velocities always and
the duration only when supplied. -/
def drive_request (port : Nat) (linear_velocity angular_velocity : ℚ)
    (duration : Option ℚ) : HttpRequest :=
  ⟨Method.post, get_robot_api_url port ++ "/drive", [],
    some ([("linear_velocity", ParamVal.num linear_velocity),
           ("angular_velocity", ParamVal.num angular_velocity)] ++
      (match duration with
       | some d => [("duration", ParamVal.num d)]
       | none => [])), none⟩

/-- The GET request built by robot_status: the root endpoint. -/
def robot_status_request (port : Nat) : HttpRequest :=
  ⟨Method.get, get_robot_api_url port ++ "/", [], none, none⟩

/-- The GET request built by get_camera_image: format and quality always. -/
def get_camera_image_request (port : Nat) (format : String) (quality : ℚ) :
    HttpRequest :=
  ⟨Method.get, get_robot_api_url port ++ "/image",
    [("format", ParamVal.str format), ("quality", ParamVal.num quality)],
    none, none⟩

/-- The drive_forward tool: issues its single GET against the network
environment and maps the outcome through raise_for_status and json().
Returns the outbound requests issued together with the call result. -/
def drive_forward (port : Nat) (speed : ℚ) (duration : Option ℚ)
    (net : HttpRequest → FetchOutcome) :
    List HttpRequest × Except RelayError Json :=
  ([drive_forward_request port speed duration],
   relay_result (net (drive_forward_request port speed duration)))

/-- The drive_backward tool. -/
def drive_backward (port : Nat) (speed : ℚ) (duration : Option ℚ)
    (net : HttpRequest → FetchOutcome) :
    List HttpRequest × Except RelayError Json :=
  ([drive_backward_request port speed duration],
   relay_result (net (drive_backward_request port speed duration)))

/-- The turn_left tool. -/
def turn_left (port : Nat) (speed : ℚ) (duration : Option ℚ)
    (net : HttpRequest → FetchOutcome) :
    List HttpRequest × Except RelayError Json :=
  ([turn_left_request port speed duration],
   relay_result (net (turn_left_request port speed duration)))

/-- The turn_right tool. -/
def turn_right (port : Nat) (speed : ℚ) (duration : Option ℚ)
    (net : HttpRequest → FetchOutcome) :
    List HttpRequest × Except RelayError Json :=
  ([turn_right_request port speed duration],
   relay_result (net (turn_right_request port speed duration)))

/-- The stop tool. -/
def stop (port : Nat) (net : HttpRequest → FetchOutcome) :
    List HttpRequest × Except RelayError Json :=
  ([stop_request port], relay_result (net (stop_request port)))

/-- The beep tool. -/
def beep (port : Nat) (frequency duration volume : ℚ)
    (net : HttpRequest → FetchOutcome) :
    List HttpRequest × Except RelayError Json :=
  ([beep_request port frequency duration volume],
   relay_result (net (beep_request port frequency duration volume)))

/-- The drive tool. -/
def drive (port : Nat) (linear_velocity angular_velocity : ℚ)
    (duration : Option ℚ) (net : HttpRequest → FetchOutcome) :
    List HttpRequest × Except RelayError Json :=
  ([drive_request port linear_velocity angular_velocity duration],
   relay_result (net (drive_request port linear_velocity angular_velocity duration)))

/-- The robot_status tool. -/
def robot_status (port : Nat) (net : HttpRequest → FetchOutcome) :
    List HttpRequest × Except RelayError Json :=
  ([robot_status_request port],
   relay_result (net (robot_status_request port)))

/-- The Image result of get_camera_image: raw bytes plus the format tag. -/
structure Image where
  data : List Nat
  format : String
deriving Repr, DecidableEq

/-- Default format argument of get_camera_image. -/
def get_camera_image_default_format : String := "png"

/-- Default quality argument of get_camera_image. -/
def get_camera_image_default_quality : ℚ := 90

/-- The get_camera_image tool: issues its single GET, checks
raise_for_status, then wraps the raw response bytes in an Image tagged with
the requested format argument. -/
def get_camera_image (port : Nat) (format : String) (quality : ℚ)
    (net : HttpRequest → FetchOutcome) :
    List HttpRequest × Except RelayError Image :=
  ([get_camera_image_request port format quality],
   match net (get_camera_image_request port format quality) with
   | .exc msg => .error (.transportError msg)
   | .success r =>
       if is_success r.status_code then .ok ⟨r.content, format⟩
       else .error (.downstreamApplicationError r.status_code))

/-- The statically configured fleet of list_available_robots. -/
def robots : List (Nat × String) :=
  [(8000, "Robot 1"), (8001, "Robot 2")]

/-- The per-target status query: GET on the root endpoint. The aggregator
passes timeout 1.0; the info lookup passes no explicit timeout. -/
def status_request (port : Nat) (timeout : Option ℚ) : HttpRequest :=
  ⟨Method.get, get_robot_api_url port ++ "/", [], none, timeout⟩

/-- One per-target entry of the fleet report. -/
structure RobotEntry where
  port : Nat
  name : String
  status : String
  info : Option Json

/-- Per-target classification in list_available_robots, the body of its
try/except block: a response with status exactly 200 and a parseable body is
online with the parsed payload; a response with any other status is an error
entry carrying the code; any exception, whether the transport failure of the
GET or json() raising on a 200 body, is caught and becomes an offline entry
carrying the exception message. -/
def classify_robot (port : Nat) (name : String) (outcome : FetchOutcome) :
    RobotEntry :=
  match outcome with
  | .exc msg => ⟨port, name, "offline: " ++ msg, none⟩
  | .success r =>
      if r.status_code = 200 then
        match r.jsonBody with
        | .ok j => ⟨port, name, "online", some j⟩
        | .error m => ⟨port, name, "offline: " ++ m, none⟩
      else ⟨port, name, "error: " ++ toString r.status_code, none⟩

/-- The list_available_robots tool: one independent status query per
configured robot, each classified on its own, collected in configured
order. -/
def list_available_robots (net : HttpRequest → FetchOutcome) :
    List RobotEntry :=
  robots.map (fun r => classify_robot r.1 r.2 (net (status_request r.1 (some 1))))

/-- Lookup of a key in a JSON payload: the membership test plus indexing in
get_robot_info only yields a value when the payload is an object containing
the key. -/
def json_get (j : Json) (key : String) : Option Json :=
  match j with
  | .obj fields => (fields.find? (fun kv => kv.1 == key)).map Prod.snd
  | _ => none

/-- Fixed capability listing returned by get_robot_info. -/
def robot_info_capabilities : List String :=
  ["Movement: forward, backward, left, right",
   "Sound: beep at different frequencies",
   "Control: precise velocity control",
   "Vision: camera image capture"]

/-- Fixed endpoint listing returned by get_robot_info. -/
def robot_info_api_endpoints : List String :=
  ["/forward - Move forward",
   "/backward - Move backward",
   "/left - Turn left",
   "/right - Turn right",
   "/stop - Stop movement",
   "/beep - Play sound",
   "/drive - Precise movement control",
   "/image - Get camera image",
   "/image/base64 - Get base64 encoded camera image"]

/-- Result of the robot info resource. The name is a JSON value because the
code relays the downstream name field unchanged, whatever its type. -/
structure RobotInfo where
  name : Json
  port : Nat
  capabilities : List String
  api_endpoints : List String

/-- Deterministic fallback display name derived only from the port. -/
def fallback_name (port : Nat) : String :=
  "Robot (Port " ++ toString port ++ ")"

/-- The get_robot_info resource: one best-effort root query inside a bare
try/except; only a status-200 response whose body parses to an object with a
name key replaces the fallback name; the fixed capability and endpoint
listings are attached unconditionally. -/
def get_robot_info (port : Nat) (net : HttpRequest → FetchOutcome) :
    RobotInfo :=
  let resolved :=
    match net (status_request port none) with
    | .exc _ => Json.str (fallback_name port)
    | .success r =>
        if r.status_code = 200 then
          match r.jsonBody with
          | .ok j =>
              match json_get j ("name") with
              | some v => v
              | none => Json.str (fallback_name port)
          | .error _ => Json.str (fallback_name port)
        else Json.str (fallback_name port)
  ⟨resolved, port, robot_info_capabilities, robot_info_api_endpoints⟩

/-- Every classification branch keeps the target port. -/
theorem classify_robot_port (p : Nat) (n : String) (o : FetchOutcome) :
    (classify_robot p n o).port = p := by
  cases o with
  | exc msg => rfl
  | success r =>
      cases hr : r.jsonBody <;> by_cases h : r.status_code = 200 <;>
        simp [classify_robot, h, hr]

/-- Every classification branch keeps the target name. -/
theorem classify_robot_name (p : Nat) (n : String) (o : FetchOutcome) :
    (classify_robot p n o).name = n := by
  cases o with
  | exc msg => rfl
  | success r =>
      cases hr : r.jsonBody <;> by_cases h : r.status_code = 200 <;>
        simp [classify_robot, h, hr]

/-- C1: for every combination of per-target outcomes, the fleet report of
list_available_robots has exactly one entry per configured target, in
configured order, each entry carrying that target port and name. -/
theorem list_available_robots_one_entry_per_target
    (net : HttpRequest → FetchOutcome) :
    (list_available_robots net).map (fun e => (e.port, e.name)) = robots := by
  simp [list_available_robots, robots, Function.comp,
    classify_robot_port, classify_robot_name]

/-- C1 witness at a concrete environment where every target is down. -/
theorem list_available_robots_one_entry_per_target_witness :
    (list_available_robots (fun _ => FetchOutcome.exc ("connection refused"))).map
      (fun e => (e.port, e.name)) = robots :=
  list_available_robots_one_entry_per_target
    (fun _ => FetchOutcome.exc ("connection refused"))

/-- C2 counterexample: status 201 lies in the HTTP success range, yet the
aggregator classifies that target as an application error, not online. -/
theorem classify_robot_success_range_not_online :
    is_success 201 = true ∧
      (classify_robot 8000 ("Robot 1")
          (FetchOutcome.success ⟨201, Except.ok Json.null, []⟩)).status =
        "error: 201" ∧
      ("error: 201" : String) ≠ "online" := by
  refine ⟨rfl, rfl, by decide⟩

/-- C2 amended: per-target outcomes are classified by status exactly 200
rather than the whole success range: a response with status 200 whose body
parses is online carrying the parsed payload; a response with any other
status is an application error carrying that status code; a transport
exception is unreachable carrying the exception message. -/
theorem classify_robot_three_way (p : Nat) (n : String) :
    (∀ r j, r.status_code = 200 → r.jsonBody = Except.ok j →
        classify_robot p n (FetchOutcome.success r) = ⟨p, n, "online", some j⟩) ∧
    (∀ r, r.status_code ≠ 200 →
        classify_robot p n (FetchOutcome.success r) =
          ⟨p, n, "error: " ++ toString r.status_code, none⟩) ∧
    (∀ msg, classify_robot p n (FetchOutcome.exc msg) =
        ⟨p, n, "offline: " ++ msg, none⟩) := by
  refine ⟨?_, ?_, fun msg => rfl⟩
  · intro r j h hj
    simp [classify_robot, h, hj]
  · intro r h
    simp [classify_robot, h]

/-- C2 witness: the three branches at concrete responses. -/
theorem classify_robot_three_way_witness :
    classify_robot 8000 ("Robot 1")
        (FetchOutcome.success ⟨200, Except.ok Json.null, []⟩) =
      ⟨8000, "Robot 1", "online", some Json.null⟩ ∧
    classify_robot 8000 ("Robot 1")
        (FetchOutcome.success ⟨500, Except.ok Json.null, []⟩) =
      ⟨8000, "Robot 1", "error: " ++ toString (500 : Nat), none⟩ ∧
    classify_robot 8000 ("Robot 1") (FetchOutcome.exc ("timed out")) =
      ⟨8000, "Robot 1", "offline: timed out", none⟩ :=
  ⟨(classify_robot_three_way 8000 ("Robot 1")).1
      ⟨200, Except.ok Json.null, []⟩ Json.null rfl rfl,
   (classify_robot_three_way 8000 ("Robot 1")).2.1
      ⟨500, Except.ok Json.null, []⟩ (by decide),
   (classify_robot_three_way 8000 ("Robot 1")).2.2 ("timed out")⟩

/-- C3: the fleet listing is total over per-target failures: whatever outcome
each query produces, the report always has one entry per configured target,
and a target whose query raised an exception contributes an offline entry
carrying the exception message instead of aborting the aggregate. -/
theorem list_available_robots_total (net : HttpRequest → FetchOutcome) :
    (list_available_robots net).length = robots.length ∧
    ∀ p n msg, (p, n) ∈ robots →
      net (status_request p (some 1)) = FetchOutcome.exc msg →
      (⟨p, n, "offline: " ++ msg, none⟩ : RobotEntry) ∈
        list_available_robots net := by
  constructor
  · simp [list_available_robots]
  · intro p n msg hmem hnet
    have h := List.mem_map_of_mem
      (fun r => classify_robot r.1 r.2 (net (status_request r.1 (some 1)))) hmem
    simpa [list_available_robots, hnet, classify_robot] using h

/-- C3 witness at an environment where every query raises. -/
theorem list_available_robots_total_witness :
    (list_available_robots (fun _ => FetchOutcome.exc ("boom"))).length =
      robots.length ∧
    (⟨8000, "Robot 1", "offline: boom", none⟩ : RobotEntry) ∈
      list_available_robots (fun _ => FetchOutcome.exc ("boom")) :=
  ⟨(list_available_robots_total (fun _ => FetchOutcome.exc ("boom"))).1,
   (list_available_robots_total (fun _ => FetchOutcome.exc ("boom"))).2
      8000 ("Robot 1") ("boom") (by simp [robots]) rfl⟩

/-- C4: every single-action relay tool maps its outcome through the shared
raise_for_status plus json() discipline, which turns a transport exception
into a transportError, a non-success status into a
downstreamApplicationError — never a successful result — and an unparseable
body into a malformedResponseError; no branch retries or swallows the
failure. -/
theorem relay_error_propagation (port : Nat) (speed freq dur vol lv av : ℚ)
    (d : Option ℚ) (net : HttpRequest → FetchOutcome) :
    ((drive_forward port speed d net).2 =
      relay_result (net (drive_forward_request port speed d))) ∧
    ((drive_backward port speed d net).2 =
      relay_result (net (drive_backward_request port speed d))) ∧
    ((turn_left port speed d net).2 =
      relay_result (net (turn_left_request port speed d))) ∧
    ((turn_right port speed d net).2 =
      relay_result (net (turn_right_request port speed d))) ∧
    ((stop port net).2 = relay_result (net (stop_request port))) ∧
    ((beep port freq dur vol net).2 =
      relay_result (net (beep_request port freq dur vol))) ∧
    ((drive port lv av d net).2 =
      relay_result (net (drive_request port lv av d))) ∧
    ((robot_status port net).2 =
      relay_result (net (robot_status_request port))) ∧
    (∀ msg, relay_result (FetchOutcome.exc msg) =
      Except.error (RelayError.transportError msg)) ∧
    (∀ r, is_success r.status_code = false →
      relay_result (FetchOutcome.success r) =
        Except.error (RelayError.downstreamApplicationError r.status_code)) ∧
    (∀ r m, is_success r.status_code = true → r.jsonBody = Except.error m →
      relay_result (FetchOutcome.success r) =
        Except.error (RelayError.malformedResponseError m)) := by
  refine ⟨rfl, rfl, rfl, rfl, rfl, rfl, rfl, rfl, fun msg => rfl, ?_, ?_⟩
  · intro r h
    simp [relay_result, h]
  · intro r m h hm
    simp [relay_result, h, hm]

/-- C4 witness: a 500 response and a malformed 200 body each become the
corresponding failed result at concrete inputs. -/
theorem relay_error_propagation_witness :
    relay_result (FetchOutcome.success ⟨500, Except.ok Json.null, []⟩) =
      Except.error (RelayError.downstreamApplicationError 500) ∧
    relay_result (FetchOutcome.success ⟨200, Except.error ("bad json"), []⟩) =
      Except.error (RelayError.malformedResponseError ("bad json")) := by
  obtain ⟨-, -, -, -, -, -, -, -, -, h10, h11⟩ :=
    relay_error_propagation 8000 0 0 0 0 0 0 none
      (fun _ => FetchOutcome.exc ("unused"))
  exact ⟨h10 ⟨500, Except.ok Json.null, []⟩ rfl,
    h11 ⟨200, Except.error ("bad json"), []⟩ ("bad json") rfl rfl⟩

/-- C5: for each relay action with an optional duration, the omitted form
sends no duration key at all — the parameter list holds the other keys
only — while the supplied form appends the duration key with the given
value. -/
theorem optional_duration_omitted (port : Nat) (speed lv av d : ℚ) :
    ((drive_forward_request port speed none).params =
      [("speed", ParamVal.num speed)]) ∧
    ((drive_forward_request port speed (some d)).params =
      [("speed", ParamVal.num speed), ("duration", ParamVal.num d)]) ∧
    ((drive_backward_request port speed none).params =
      [("speed", ParamVal.num speed)]) ∧
    ((drive_backward_request port speed (some d)).params =
      [("speed", ParamVal.num speed), ("duration", ParamVal.num d)]) ∧
    ((turn_left_request port speed none).params =
      [("speed", ParamVal.num speed)]) ∧
    ((turn_left_request port speed (some d)).params =
      [("speed", ParamVal.num speed), ("duration", ParamVal.num d)]) ∧
    ((turn_right_request port speed none).params =
      [("speed", ParamVal.num speed)]) ∧
    ((turn_right_request port speed (some d)).params =
      [("speed", ParamVal.num speed), ("duration", ParamVal.num d)]) ∧
    ((drive_request port lv av none).jsonData =
      some [("linear_velocity", ParamVal.num lv),
            ("angular_velocity", ParamVal.num av)]) ∧
    ((drive_request port lv av (some d)).jsonData =
      some [("linear_velocity", ParamVal.num lv),
            ("angular_velocity", ParamVal.num av),
            ("duration", ParamVal.num d)]) ∧
    (("duration" : String) ∉
      (drive_forward_request port speed none).params.map Prod.fst) ∧
    (("duration" : String) ∉
      ((drive_request port lv av none).jsonData.getD []).map Prod.fst) := by
  refine ⟨rfl, rfl, rfl, rfl, rfl, rfl, rfl, rfl, rfl, rfl, ?_, ?_⟩
  · simp [drive_forward_request, movement_params]
  · simp [drive_request]

/-- C5 witness at concrete parameter values. -/
theorem optional_duration_omitted_witness :
    (drive_forward_request 8000 (1/5) none).params =
      [("speed", ParamVal.num (1/5))] ∧
    (drive_request 8000 0 0 none).jsonData =
      some [("linear_velocity", ParamVal.num 0),
            ("angular_velocity", ParamVal.num 0)] :=
  ⟨(optional_duration_omitted 8000 (1/5) 0 0 1).1,
   (optional_duration_omitted 8000 (1/5) 0 0 1).2.2.2.2.2.2.2.2.1⟩

/-- C6: drive_forward with speed one half and duration two issues exactly one
GET request to the forward endpoint carrying those two query parameters, and
relays the parsed JSON body unchanged on downstream success; every relay
tool issues exactly one outbound request per invocation. -/
theorem drive_forward_single_request (port : Nat)
    (speed freq dur vol lv av q : ℚ) (d : Option ℚ) (fmt : String)
    (net : HttpRequest → FetchOutcome) :
    ((drive_forward port (1/2) (some 2) net).1 =
      [drive_forward_request port (1/2) (some 2)]) ∧
    ((drive_forward_request port (1/2) (some 2)).method = Method.get) ∧
    ((drive_forward_request port (1/2) (some 2)).url =
      get_robot_api_url port ++ "/forward") ∧
    ((drive_forward_request port (1/2) (some 2)).params =
      [("speed", ParamVal.num (1/2)), ("duration", ParamVal.num 2)]) ∧
    (∀ r j, net (drive_forward_request port (1/2) (some 2)) =
        FetchOutcome.success r →
      is_success r.status_code = true → r.jsonBody = Except.ok j →
      (drive_forward port (1/2) (some 2) net).2 = Except.ok j) ∧
    ((drive_forward port speed d net).1.length = 1) ∧
    ((drive_backward port speed d net).1.length = 1) ∧
    ((turn_left port speed d net).1.length = 1) ∧
    ((turn_right port speed d net).1.length = 1) ∧
    ((stop port net).1.length = 1) ∧
    ((beep port freq dur vol net).1.length = 1) ∧
    ((drive port lv av d net).1.length = 1) ∧
    ((robot_status port net).1.length = 1) ∧
    ((get_camera_image port fmt q net).1.length = 1) := by
  refine ⟨rfl, rfl, rfl, rfl, ?_, rfl, rfl, rfl, rfl, rfl, rfl, rfl, rfl, rfl⟩
  intro r j hnet hs hj
  simp only [drive_forward]
  rw [hnet]
  simp [relay_result, hs, hj]

/-- C6 witness: a concrete successful environment for the end-to-end call. -/
theorem drive_forward_single_request_witness :
    (drive_forward 8000 (1/2) (some 2)
        (fun _ => FetchOutcome.success ⟨200, Except.ok (Json.str ("ok")), []⟩)).1 =
      [drive_forward_request 8000 (1/2) (some 2)] ∧
    (drive_forward 8000 (1/2) (some 2)
        (fun _ => FetchOutcome.success ⟨200, Except.ok (Json.str ("ok")), []⟩)).2 =
      Except.ok (Json.str ("ok")) := by
  obtain ⟨h1, -, -, -, h5, -⟩ :=
    drive_forward_single_request 8000 0 0 0 0 0 0 0 none ("png")
      (fun _ => FetchOutcome.success ⟨200, Except.ok (Json.str ("ok")), []⟩)
  exact ⟨h1, h5 ⟨200, Except.ok (Json.str ("ok")), []⟩ (Json.str ("ok")) rfl rfl rfl⟩

/-- C7: get_camera_image tags its result with the requested format argument —
so jpeg yields a jpeg tag and png yields a png tag — the omitted format
defaults to png, and on downstream success the result carries the raw
response bytes. -/
theorem get_camera_image_tagged (port : Nat) (q : ℚ) (fmt : String)
    (net : HttpRequest → FetchOutcome) :
    (get_camera_image_default_format = "png") ∧
    (∀ r, net (get_camera_image_request port fmt q) = FetchOutcome.success r →
      is_success r.status_code = true →
      (get_camera_image port fmt q net).2 = Except.ok ⟨r.content, fmt⟩) := by
  refine ⟨rfl, ?_⟩
  intro r hnet hs
  simp only [get_camera_image]
  rw [hnet]
  simp [hs]

/-- C7 witness: a jpeg call and a default-format call at a concrete
successful environment. -/
theorem get_camera_image_tagged_witness :
    (get_camera_image 8000 ("jpeg") 90
        (fun _ => FetchOutcome.success ⟨200, Except.ok Json.null, [1, 2, 3]⟩)).2 =
      Except.ok ⟨[1, 2, 3], "jpeg"⟩ ∧
    (get_camera_image 8000 get_camera_image_default_format 90
        (fun _ => FetchOutcome.success ⟨200, Except.ok Json.null, [1, 2, 3]⟩)).2 =
      Except.ok ⟨[1, 2, 3], "png"⟩ :=
  ⟨(get_camera_image_tagged 8000 90 ("jpeg")
      (fun _ => FetchOutcome.success ⟨200, Except.ok Json.null, [1, 2, 3]⟩)).2
      ⟨200, Except.ok Json.null, [1, 2, 3]⟩ rfl rfl,
   (get_camera_image_tagged 8000 90 get_camera_image_default_format
      (fun _ => FetchOutcome.success ⟨200, Except.ok Json.null, [1, 2, 3]⟩)).2
      ⟨200, Except.ok Json.null, [1, 2, 3]⟩ rfl rfl⟩

/-- C8: get_robot_info resolves the deterministic port-derived fallback name
on any failure of the best-effort status query — a transport exception, a
non-success status, an unparseable body, or a payload without a name key —
and in every case attaches the fixed capability and endpoint listings and
the given port. -/
theorem get_robot_info_fallback (port : Nat)
    (net : HttpRequest → FetchOutcome) :
    ((get_robot_info port net).capabilities = robot_info_capabilities) ∧
    ((get_robot_info port net).api_endpoints = robot_info_api_endpoints) ∧
    ((get_robot_info port net).port = port) ∧
    (∀ msg, net (status_request port none) = FetchOutcome.exc msg →
      (get_robot_info port net).name = Json.str (fallback_name port)) ∧
    (∀ r, net (status_request port none) = FetchOutcome.success r →
      is_success r.status_code = false →
      (get_robot_info port net).name = Json.str (fallback_name port)) ∧
    (∀ r m, net (status_request port none) = FetchOutcome.success r →
      r.jsonBody = Except.error m →
      (get_robot_info port net).name = Json.str (fallback_name port)) ∧
    (∀ r j, net (status_request port none) = FetchOutcome.success r →
      r.jsonBody = Except.ok j → json_get j ("name") = none →
      (get_robot_info port net).name = Json.str (fallback_name port)) := by
  refine ⟨rfl, rfl, rfl, ?_, ?_, ?_, ?_⟩
  · intro msg hnet
    simp only [get_robot_info]
    rw [hnet]
  · intro r hnet hs
    have h200 : r.status_code ≠ 200 := by
      intro h
      rw [h] at hs
      exact absurd hs (by decide)
    simp only [get_robot_info]
    rw [hnet]
    simp [h200]
  · intro r m hnet hm
    simp only [get_robot_info]
    rw [hnet]
    by_cases h : r.status_code = 200 <;> simp [h, hm]
  · intro r j hnet hj hname
    simp only [get_robot_info]
    rw [hnet]
    by_cases h : r.status_code = 200 <;> simp [h, hj, hname]

/-- C8 witness: failure cases at concrete environments, each resolving the
fallback name while the fixed listings are attached. -/
theorem get_robot_info_fallback_witness :
    (get_robot_info 8000 (fun _ => FetchOutcome.exc ("refused"))).capabilities =
      robot_info_capabilities ∧
    (get_robot_info 8000 (fun _ => FetchOutcome.exc ("refused"))).name =
      Json.str (fallback_name 8000) ∧
    (get_robot_info 8001
        (fun _ => FetchOutcome.success ⟨503, Except.ok Json.null, []⟩)).name =
      Json.str (fallback_name 8001) ∧
    (get_robot_info 8000
        (fun _ => FetchOutcome.success ⟨200, Except.ok (Json.obj []), []⟩)).name =
      Json.str (fallback_name 8000) :=
  ⟨(get_robot_info_fallback 8000 (fun _ => FetchOutcome.exc ("refused"))).1,
   (get_robot_info_fallback 8000
      (fun _ => FetchOutcome.exc ("refused"))).2.2.2.1 ("refused") rfl,
   (get_robot_info_fallback 8001
      (fun _ => FetchOutcome.success ⟨503, Except.ok Json.null, []⟩)).2.2.2.2.1
      ⟨503, Except.ok Json.null, []⟩ rfl rfl,
   (get_robot_info_fallback 8000
      (fun _ => FetchOutcome.success ⟨200, Except.ok (Json.obj []), []⟩)).2.2.2.2.2.2
      ⟨200, Except.ok (Json.obj []), []⟩ (Json.obj []) rfl rfl rfl⟩

/-- C9: every operation derives its downstream URL from the fixed base
http://localhost:<port>, so the host component is constant and a target is
identified solely by its port number. -/
theorem base_url_localhost (port : Nat) (speed freq dur vol lv av q : ℚ)
    (d t : Option ℚ) (fmt : String) :
    (get_robot_api_url port = "http://localhost:" ++ toString port) ∧
    ((drive_forward_request port speed d).url =
      get_robot_api_url port ++ "/forward") ∧
    ((drive_backward_request port speed d).url =
      get_robot_api_url port ++ "/backward") ∧
    ((turn_left_request port speed d).url =
      get_robot_api_url port ++ "/left") ∧
    ((turn_right_request port speed d).url =
      get_robot_api_url port ++ "/right") ∧
    ((stop_request port).url = get_robot_api_url port ++ "/stop") ∧
    ((beep_request port freq dur vol).url =
      get_robot_api_url port ++ "/beep") ∧
    ((drive_request port lv av d).url = get_robot_api_url port ++ "/drive") ∧
    ((robot_status_request port).url = get_robot_api_url port ++ "/") ∧
    ((get_camera_image_request port fmt q).url =
      get_robot_api_url port ++ "/image") ∧
    ((status_request port t).url = get_robot_api_url port ++ "/") :=
  ⟨rfl, rfl, rfl, rfl, rfl, rfl, rfl, rfl, rfl, rfl, rfl⟩

/-- C9 witness at concrete arguments. -/
theorem base_url_localhost_witness :
    get_robot_api_url 8000 = "http://localhost:" ++ toString (8000 : Nat) ∧
    (stop_request 8000).url = get_robot_api_url 8000 ++ "/stop" :=
  ⟨(base_url_localhost 8000 0 0 0 0 0 0 0 none none ("png")).1,
   (base_url_localhost 8000 0 0 0 0 0 0 0 none none ("png")).2.2.2.2.2.1⟩

/-- C10: the configured fleet is the fixed two-target constant, so every
fleet report has exactly two entries, the port 8000 entry named Robot 1
first and the port 8001 entry named Robot 2 second. -/
theorem robots_fixed_constant (net : HttpRequest → FetchOutcome) :
    robots = [(8000, "Robot 1"), (8001, "Robot 2")] ∧
    (list_available_robots net).length = 2 ∧
    (list_available_robots net).map (fun e => e.port) = [8000, 8001] ∧
    (list_available_robots net).map (fun e => e.name) =
      ["Robot 1", "Robot 2"] := by
  refine ⟨rfl, ?_, ?_, ?_⟩ <;>
    simp [list_available_robots, robots, classify_robot_port,
      classify_robot_name]

/-- C10 witness at a concrete environment. -/
theorem robots_fixed_constant_witness :
    (list_available_robots (fun _ => FetchOutcome.exc ("down"))).map
        (fun e => e.port) = [8000, 8001] ∧
    (list_available_robots (fun _ => FetchOutcome.exc ("down"))).length = 2 :=
  ⟨(robots_fixed_constant (fun _ => FetchOutcome.exc ("down"))).2.2.1,
   (robots_fixed_constant (fun _ => FetchOutcome.exc ("down"))).2.1⟩

end Server
